import Mathlib

/-!
Verification of the Dark Reader dynamic-theme color pipeline and its Boosts
color-tinting feature, shallowly embedded from the repository sources:

* `src/COLOR_TINTING_TECHNICAL_GUIDE.md` — the `applyTint` function of
  `src/inject/dynamic-theme/modify-colors.ts` (guarded variant, clamping
  saturation and lightness), the color modification flow, and the tint step
  of `modifyColorWithCache`;
* `src/BOOSTS_FEATURE_IMPLEMENTATION.md` — the unguarded, non-clamping
  `applyTint` variant and the cache-key description;
* `src/unnamed/part_000` — the `DarkReader.enable` option set (ThemeConfig
  fields, ranges and defaults);
* `src/unnamed/part_002` — the `FilterSettings` popup component with its
  `UpDown` controls for brightness, contrast, sepia, grayscale and the tint.

Machine numbers are embedded as exact rationals; the JavaScript `%` operator
is embedded as truncated remainder (sign of the dividend).
-/

/-- An HSLA color value as used by `modify-colors.ts`: hue in degrees,
saturation, lightness and alpha as fractions. -/
@[ext]
structure HSLA where
  h : ℚ
  s : ℚ
  l : ℚ
  a : ℚ
deriving DecidableEq

/-- Truncation toward zero of a rational, matching how JavaScript computes
the integral quotient inside the `%` operator. -/
def ratTrunc (q : ℚ) : ℤ := if 0 ≤ q then ⌊q⌋ else ⌈q⌉

/-- The JavaScript remainder operator `a % b`: `a - b * trunc(a / b)`, which
keeps the sign of the left operand `a`. -/
def jsMod (a b : ℚ) : ℚ := a - b * (ratTrunc (a / b) : ℚ)

/-- The clamp helper `clamp(x, lo, hi) = Math.min(hi, Math.max(lo, x))` used
by the guide variant of `applyTint`. -/
def clamp (x lo hi : ℚ) : ℚ := min hi (max lo x)

/-- Function `applyTint` as given in `src/COLOR_TINTING_TECHNICAL_GUIDE.md`: guarded by
`!tintColor || tintStrength <= 0`, clamping the blended saturation and
lightness into `[0,1]`.  The external color parser `parseToHSLWithCache` is
passed in as the function argument `parse`. -/
def applyTint (parse : String → HSLA) (hsl : HSLA) (tintColor : String)
    (tintStrength : ℚ) : HSLA :=
  if tintColor = "" ∨ tintStrength ≤ 0 then hsl
  else
    let tint := parse tintColor
    let strength := min 100 (max 0 tintStrength) / 100
    let hueDiff1 := tint.h - hsl.h
    let hueDiff2 := if hueDiff1 > 180 then hueDiff1 - 360 else hueDiff1
    let hueDiff := if hueDiff2 < -180 then hueDiff2 + 360 else hueDiff2
    { h := jsMod (hsl.h + hueDiff * strength * (6 / 10)) 360
      s := clamp (hsl.s + (tint.s - hsl.s) * strength * (5 / 10)) 0 1
      l := clamp (hsl.l + (tint.l - hsl.l) * strength * (2 / 10)) 0 1
      a := hsl.a }

/-- Function `applyTint` as given in `src/BOOSTS_FEATURE_IMPLEMENTATION.md`: no guard,
`if / else if` hue adjustment, no clamping of the blended components.  The
external color parser is again the argument `parse`. -/
def applyTintBoosts (parse : String → HSLA) (hsl : HSLA) (tintColor : String)
    (tintStrength : ℚ) : HSLA :=
  let tint := parse tintColor
  let strength := min 100 (max 0 tintStrength) / 100
  let hueDiff := if tint.h - hsl.h > 180 then tint.h - hsl.h - 360
    else if tint.h - hsl.h < -180 then tint.h - hsl.h + 360
    else tint.h - hsl.h
  { h := jsMod (hsl.h + hueDiff * strength * (6 / 10)) 360
    s := hsl.s + (tint.s - hsl.s) * strength * (5 / 10)
    l := hsl.l + (tint.l - hsl.l) * strength * (2 / 10)
    a := hsl.a }

/-- The theme configuration, with the fields and the order listed by the
`DarkReader.enable` option reference (`src/unnamed/part_000`), including the
two Boosts fields `tintColor` and `tintStrength`, the font override fields
`useFont`, `fontFamily` and `textStroke`, and the system-control styling
boolean `styleSystemControls`. -/
structure ThemeConfig where
  brightness : ℚ
  contrast : ℚ
  sepia : ℚ
  grayscale : ℚ
  mode : ℕ
  tintColor : String
  tintStrength : ℚ
  darkSchemeBackgroundColor : String
  darkSchemeTextColor : String
  lightSchemeBackgroundColor : String
  lightSchemeTextColor : String
  scrollbarColor : String
  selectionColor : String
  useFont : Bool
  fontFamily : String
  textStroke : ℚ
  styleSystemControls : Bool
deriving DecidableEq

/-- The default theme values listed in the `DarkReader.enable` option
reference (`src/unnamed/part_000`); the reference gives no literal string
for the `fontFamily` default ("system font"), embedded here as the empty
string. -/
def DEFAULT_THEME : ThemeConfig :=
  { brightness := 100
    contrast := 100
    sepia := 0
    grayscale := 0
    mode := 1
    tintColor := ""
    tintStrength := 0
    darkSchemeBackgroundColor := "#181a1b"
    darkSchemeTextColor := "#e8e6e3"
    lightSchemeBackgroundColor := "#dcdad7"
    lightSchemeTextColor := "#181a1b"
    scrollbarColor := ""
    selectionColor := "auto"
    useFont := false
    fontFamily := ""
    textStroke := 0
    styleSystemControls := true }

/-- The tint step of `modifyColorWithCache`
(`src/COLOR_TINTING_TECHNICAL_GUIDE.md`): the already modified color is
tinted only when `theme.tintColor && theme.tintStrength > 0`. -/
def modifyColorTint (parse : String → HSLA) (theme : ThemeConfig)
    (modified : HSLA) : HSLA :=
  if theme.tintColor ≠ "" ∧ 0 < theme.tintStrength then
    applyTint parse modified theme.tintColor theme.tintStrength
  else modified

/-- The stages of the color modification flow named in
`src/COLOR_TINTING_TECHNICAL_GUIDE.md`. -/
inductive Stage where
  | parseToHSL
  | darkModeTransform
  | applyTintStage
  | convertToRGB
  | cssFilters
deriving DecidableEq, BEq

/-- The color modification flow, in the order drawn in
`src/COLOR_TINTING_TECHNICAL_GUIDE.md`: parse to HSL, apply the dark mode
transform (`modifyBgHSL`, `modifyFgHSL`, ...), apply the tint, convert back
to RGB, then apply the CSS filters (brightness, contrast, sepia). -/
def colorModificationFlow : List Stage :=
  [Stage.parseToHSL, Stage.darkModeTransform, Stage.applyTintStage,
   Stage.convertToRGB, Stage.cssFilters]

/-- The type of theme fingerprints: one component per `ThemeConfig` field. -/
structure ThemeFingerprint where
  brightness : ℚ
  contrast : ℚ
  sepia : ℚ
  grayscale : ℚ
  mode : ℕ
  tintColor : String
  tintStrength : ℚ
  darkSchemeBackgroundColor : String
  darkSchemeTextColor : String
  lightSchemeBackgroundColor : String
  lightSchemeTextColor : String
  scrollbarColor : String
  selectionColor : String
  useFont : Bool
  fontFamily : String
  textStroke : ℚ
  styleSystemControls : Bool
deriving DecidableEq

/-- Modelled from the spec: the theme fingerprint is a deterministic
serialization of the active `ThemeConfig` in which any field change produces
a new fingerprint; the serialization code itself (the cache-key construction
of `modify-colors.ts`) is not under `src/`, only the statement in
`src/BOOSTS_FEATURE_IMPLEMENTATION.md` that `tintColor` and `tintStrength`
were added to the theme cache keys. -/
def themeFingerprint (t : ThemeConfig) : ThemeFingerprint :=
  ⟨t.brightness, t.contrast, t.sepia, t.grayscale, t.mode, t.tintColor,
   t.tintStrength, t.darkSchemeBackgroundColor, t.darkSchemeTextColor,
   t.lightSchemeBackgroundColor, t.lightSchemeTextColor, t.scrollbarColor,
   t.selectionColor, t.useFont, t.fontFamily, t.textStroke,
   t.styleSystemControls⟩

/-- Modelled from the spec: one transform-cache entry, keyed by the original
color string and the theme fingerprint it was computed under. -/
structure CacheEntry where
  color : String
  fp : ThemeFingerprint
  value : String

/-- Modelled from the spec: transform-cache lookup by
`(original color, theme fingerprint)`. -/
def lookupCache (entries : List CacheEntry) (c : String)
    (f : ThemeFingerprint) : Option CacheEntry :=
  entries.find? (fun e => decide (e.color = c ∧ e.fp = f))

/-- An `UpDown` popup control as instantiated by `FilterSettings`
(`src/unnamed/part_002`): bounds, step and default value. -/
structure UpDownControl where
  min : ℤ
  max : ℤ
  step : ℤ
  default : ℤ

/-- One click on the up arrow of an `UpDown` control. -/
def upStep (c : UpDownControl) (v : ℤ) : ℤ := Min.min c.max (v + c.step)

/-- One click on the down arrow of an `UpDown` control. -/
def downStep (c : UpDownControl) (v : ℤ) : ℤ := Max.max c.min (v - c.step)

/-- The values of an `UpDown` control reachable from its default by clicking
the up and down arrows. -/
inductive UpDownReachable (c : UpDownControl) : ℤ → Prop where
  | start : UpDownReachable c c.default
  | up {v : ℤ} : UpDownReachable c v → UpDownReachable c (upStep c v)
  | down {v : ℤ} : UpDownReachable c v → UpDownReachable c (downStep c v)

/-- The brightness control of `FilterSettings` (`src/unnamed/part_002`):
`min={50} max={150} step={5} default={100}`. -/
def brightnessControl : UpDownControl :=
  { min := 50, max := 150, step := 5, default := 100 }

/-- The contrast control of `FilterSettings` (`src/unnamed/part_002`):
`min={50} max={150} step={5} default={100}`. -/
def contrastControl : UpDownControl :=
  { min := 50, max := 150, step := 5, default := 100 }

/-- The `onChange` handler of the brightness control:
`(value) => setConfig({brightness: value})`. -/
def setBrightness (t : ThemeConfig) (value : ℚ) : ThemeConfig :=
  { t with brightness := value }

/-- The `onChange` handler of the contrast control:
`(value) => setConfig({contrast: value})`. -/
def setContrast (t : ThemeConfig) (value : ℚ) : ThemeConfig :=
  { t with contrast := value }

/-- A concrete stand-in for `parseToHSLWithCache` mapping every string to a
green tint, used for concrete instantiations. -/
def parseGreen : String → HSLA := fun _ => ⟨120, 1 / 3, 2 / 3, 1⟩

/-- A concrete parser mapping every string to a tint at hue 10. -/
def parseHue10 : String → HSLA := fun _ => ⟨10, 0, 0, 1⟩

/-- A concrete parser mapping every string to a tint at hue 350. -/
def parseHue350 : String → HSLA := fun _ => ⟨350, 1 / 2, 1 / 2, 1⟩

/-- A concrete parser mapping every string to a red tint at hue 0. -/
def parseRed : String → HSLA := fun _ => ⟨0, 1, 1 / 2, 1⟩

/-- A concrete stand-in for the filter pipeline, used for concrete
instantiations. -/
def sampleFilterOut : String → ThemeConfig → HSLA := fun _ _ => ⟨210, 1 / 2, 1 / 4, 1⟩

/-- The default theme with the warm tint of the guide example configuration
(`tintColor: '#FF8C42', tintStrength: 25`). -/
def warmTintTheme : ThemeConfig :=
  { DEFAULT_THEME with tintColor := "#FF8C42", tintStrength := 25 }

/-- A concrete cache entry computed under `warmTintTheme`. -/
def warmCacheEntry : CacheEntry :=
  ⟨"#FFFFFF", themeFingerprint warmTintTheme, "#221a18"⟩

/-! Helper lemmas about the numeric building blocks. -/

lemma ratTrunc_of_nonneg {q : ℚ} (h : 0 ≤ q) : ratTrunc q = ⌊q⌋ := by
  rw [ratTrunc, if_pos h]

lemma jsMod_eq_self {x : ℚ} (h0 : 0 ≤ x) (h1 : x < 360) : jsMod x 360 = x := by
  have hq : (0 : ℚ) ≤ x / 360 := by positivity
  have hfl : ratTrunc (x / 360) = 0 := by
    rw [ratTrunc_of_nonneg hq, Int.floor_eq_zero_iff]
    exact Set.mem_Ico.mpr ⟨hq, by rw [div_lt_one (by norm_num)]; exact h1⟩
  rw [jsMod, hfl]
  push_cast
  ring

lemma clamp_eq_self {x : ℚ} (h0 : 0 ≤ x) (h1 : x ≤ 1) : clamp x 0 1 = x := by
  rw [clamp, max_eq_right h0, min_eq_right h1]

lemma strengthClamp_nonneg (ts : ℚ) : 0 ≤ min 100 (max 0 ts) / 100 := by
  have h : (0 : ℚ) ≤ min 100 (max 0 ts) := le_min (by norm_num) (le_max_left 0 ts)
  positivity

lemma strengthClamp_le_one (ts : ℚ) : min 100 (max 0 ts) / 100 ≤ 1 := by
  have h : min 100 (max 0 ts) ≤ 100 := min_le_left _ _
  linarith

lemma strengthClamp_of_range {ts : ℚ} (h0 : 0 ≤ ts) (h1 : ts ≤ 100) :
    min 100 (max 0 ts) = ts := by
  rw [max_eq_right h0, min_eq_right h1]

lemma strengthClamp_idem (ts : ℚ) :
    min 100 (max 0 (min 100 (max 0 ts))) = min 100 (max 0 ts) := by
  have h0 : (0 : ℚ) ≤ min 100 (max 0 ts) := le_min (by norm_num) (le_max_left 0 ts)
  have h1 : min 100 (max 0 ts) ≤ 100 := min_le_left _ _
  rw [max_eq_right h0, min_eq_right h1]

lemma strengthClamp_of_nonpos {ts : ℚ} (h : ts ≤ 0) : min 100 (max 0 ts) = 0 := by
  rw [max_eq_left h, min_eq_right (by norm_num)]

lemma satBlend_mem {s t str : ℚ} (hs0 : 0 ≤ s) (hs1 : s ≤ 1) (ht0 : 0 ≤ t)
    (ht1 : t ≤ 1) (hstr0 : 0 ≤ str) (hstr1 : str ≤ 1) :
    0 ≤ s + (t - s) * str * (5 / 10) ∧ s + (t - s) * str * (5 / 10) ≤ 1 := by
  constructor <;> nlinarith

lemma lightBlend_mem {s t str : ℚ} (hs0 : 0 ≤ s) (hs1 : s ≤ 1) (ht0 : 0 ≤ t)
    (ht1 : t ≤ 1) (hstr0 : 0 ≤ str) (hstr1 : str ≤ 1) :
    0 ≤ s + (t - s) * str * (2 / 10) ∧ s + (t - s) * str * (2 / 10) ≤ 1 := by
  constructor <;> nlinarith

lemma hueDiff_double_if (d : ℚ) :
    (if (if d > 180 then d - 360 else d) < -180
      then (if d > 180 then d - 360 else d) + 360
      else if d > 180 then d - 360 else d) =
    (if d > 180 then d - 360 else if d < -180 then d + 360 else d) := by
  split_ifs with h1 h2 h3 <;> first | rfl | linarith

lemma themeFingerprint_injective : Function.Injective themeFingerprint := by
  intro t1 t2 h
  cases t1
  cases t2
  simpa [themeFingerprint, ThemeFingerprint.mk.injEq, ThemeConfig.mk.injEq] using h

/-! Reachable values of the `FilterSettings` brightness and contrast
`UpDown` controls. -/

lemma contrastControl_eq : contrastControl = brightnessControl := rfl

lemma brightnessReachable_inv {v : ℤ} (h : UpDownReachable brightnessControl v) :
    50 ≤ v ∧ v ≤ 150 ∧ (5 : ℤ) ∣ (v - 100) := by
  induction h with
  | start =>
    exact ⟨by norm_num [brightnessControl], by norm_num [brightnessControl],
      ⟨0, by norm_num [brightnessControl]⟩⟩
  | @up w hw ih =>
    obtain ⟨h1, h2, k, hk⟩ := ih
    have hstep : upStep brightnessControl w = min 150 (w + 5) := by
      simp [upStep, brightnessControl]
    rw [hstep]
    rcases le_total (w + 5) 150 with hle | hge
    · rw [min_eq_right hle]
      exact ⟨by linarith, hle, ⟨k + 1, by linarith⟩⟩
    · rw [min_eq_left hge]
      exact ⟨by norm_num, le_refl _, ⟨10, by norm_num⟩⟩
  | @down w hw ih =>
    obtain ⟨h1, h2, k, hk⟩ := ih
    have hstep : downStep brightnessControl w = max 50 (w - 5) := by
      simp [downStep, brightnessControl]
    rw [hstep]
    rcases le_total 50 (w - 5) with hle | hge
    · rw [max_eq_right hle]
      exact ⟨hle, by linarith, ⟨k - 1, by linarith⟩⟩
    · rw [max_eq_left hge]
      exact ⟨le_refl _, by norm_num, ⟨-10, by norm_num⟩⟩

lemma brightnessReachable_up : ∀ k : ℕ, 100 + 5 * (k : ℤ) ≤ 150 →
    UpDownReachable brightnessControl (100 + 5 * (k : ℤ)) := by
  intro k
  induction k with
  | zero =>
    intro _
    have h := @UpDownReachable.start brightnessControl
    simpa [brightnessControl] using h
  | succ n ih =>
    intro hk
    have hn : 100 + 5 * (n : ℤ) ≤ 150 := by push_cast at hk ⊢; linarith
    have h1 := UpDownReachable.up (ih hn)
    have hle : (100 + 5 * (n : ℤ)) + 5 ≤ 150 := by push_cast at hk; linarith
    have h2 : upStep brightnessControl (100 + 5 * (n : ℤ)) = 100 + 5 * ((n : ℤ) + 1) := by
      simp only [upStep, brightnessControl]
      rw [min_eq_right hle]
      ring
    rw [h2] at h1
    have h3 : ((n + 1 : ℕ) : ℤ) = (n : ℤ) + 1 := by push_cast; ring
    rw [h3]
    exact h1

lemma brightnessReachable_down : ∀ k : ℕ, 50 ≤ 100 - 5 * (k : ℤ) →
    UpDownReachable brightnessControl (100 - 5 * (k : ℤ)) := by
  intro k
  induction k with
  | zero =>
    intro _
    have h := @UpDownReachable.start brightnessControl
    simpa [brightnessControl] using h
  | succ n ih =>
    intro hk
    have hn : 50 ≤ 100 - 5 * (n : ℤ) := by push_cast at hk ⊢; linarith
    have h1 := UpDownReachable.down (ih hn)
    have hle : 50 ≤ (100 - 5 * (n : ℤ)) - 5 := by push_cast at hk; linarith
    have h2 : downStep brightnessControl (100 - 5 * (n : ℤ)) = 100 - 5 * ((n : ℤ) + 1) := by
      simp only [downStep, brightnessControl]
      rw [max_eq_right hle]
      ring
    rw [h2] at h1
    have h3 : ((n + 1 : ℕ) : ℤ) = (n : ℤ) + 1 := by push_cast; ring
    rw [h3]
    exact h1

lemma brightnessReachable_iff (v : ℤ) :
    UpDownReachable brightnessControl v ↔
      (50 ≤ v ∧ v ≤ 150 ∧ (5 : ℤ) ∣ (v - 100)) := by
  constructor
  · exact brightnessReachable_inv
  · rintro ⟨h1, h2, m, hm⟩
    rcases le_or_lt 0 m with hm0 | hm0
    · have hv : v = 100 + 5 * ((m.toNat : ℤ)) := by
        rw [Int.toNat_of_nonneg hm0]
        linarith
      rw [hv]
      refine brightnessReachable_up m.toNat ?_
      rw [← hv]
      exact h2
    · have hneg : 0 ≤ -m := by linarith
      have hv : v = 100 - 5 * (((-m).toNat : ℤ)) := by
        rw [Int.toNat_of_nonneg hneg]
        linarith
      rw [hv]
      refine brightnessReachable_down (-m).toNat ?_
      rw [← hv]
      exact h1

lemma applyTint_active {parse : String → HSLA} {hsl : HSLA} {tintColor : String}
    {tintStrength : ℚ} (hne : tintColor ≠ "") (hpos : 0 < tintStrength) :
    applyTint parse hsl tintColor tintStrength =
      (let tint := parse tintColor
       let strength := min 100 (max 0 tintStrength) / 100
       let hueDiff := if tint.h - hsl.h > 180 then tint.h - hsl.h - 360
         else if tint.h - hsl.h < -180 then tint.h - hsl.h + 360
         else tint.h - hsl.h
       { h := jsMod (hsl.h + hueDiff * strength * (6 / 10)) 360
         s := clamp (hsl.s + (tint.s - hsl.s) * strength * (5 / 10)) 0 1
         l := clamp (hsl.l + (tint.l - hsl.l) * strength * (2 / 10)) 0 1
         a := hsl.a }) := by
  rw [applyTint, if_neg (by push_neg; exact ⟨hne, by linarith⟩)]
  simp only [hueDiff_double_if]

/-! The claims. -/

/-- C3: for every color and every `ThemeConfig` with `tintStrength = 0` or an
empty `tintColor`, the tint step applied to the filter pipeline output is the
identity, regardless of the other tint parameter. -/
theorem c3_identity_zero_strength (parse : String → HSLA)
    (filterPipeline : String → ThemeConfig → HSLA) (c : String) (T : ThemeConfig)
    (hT : T.tintStrength = 0 ∨ T.tintColor = "") :
    modifyColorTint parse T (filterPipeline c T) = filterPipeline c T := by
  rw [modifyColorTint, if_neg]
  rintro ⟨hc, hs⟩
  rcases hT with h | h
  · rw [h] at hs
    exact lt_irrefl 0 hs
  · exact hc h

/-- Witness for C3: the default theme has zero tint strength, and the tint
step leaves a sample filtered color unchanged. -/
theorem c3_identity_zero_strength_witness :
    (DEFAULT_THEME.tintStrength = 0 ∨ DEFAULT_THEME.tintColor = "") ∧
    modifyColorTint parseGreen DEFAULT_THEME (sampleFilterOut "#FFFFFF" DEFAULT_THEME) =
      sampleFilterOut "#FFFFFF" DEFAULT_THEME :=
  ⟨Or.inl rfl,
   c3_identity_zero_strength parseGreen sampleFilterOut "#FFFFFF" DEFAULT_THEME (Or.inl rfl)⟩

/-- C4 counterexample: in the color modification flow drawn in the guide, the
tint is applied before the CSS filter stage (brightness, contrast, sepia),
not after all filter adjustments as the claim states. -/
theorem c4_stage_order_counterexample :
    colorModificationFlow.indexOf Stage.applyTintStage <
      colorModificationFlow.indexOf Stage.cssFilters ∧
    ¬ (colorModificationFlow.indexOf Stage.cssFilters <
        colorModificationFlow.indexOf Stage.applyTintStage) := by
  decide

/-- C4 amended: on a transform-cache miss the stages run in the order parse
to HSL, dark mode transform, tint blend, convert back to RGB, CSS filters
(brightness, contrast, sepia) — so the tint runs after the mode-dependent
transform but before the brightness, contrast and sepia adjustments. -/
theorem c4_stage_order_amended :
    colorModificationFlow.indexOf Stage.parseToHSL <
      colorModificationFlow.indexOf Stage.darkModeTransform ∧
    colorModificationFlow.indexOf Stage.darkModeTransform <
      colorModificationFlow.indexOf Stage.applyTintStage ∧
    colorModificationFlow.indexOf Stage.applyTintStage <
      colorModificationFlow.indexOf Stage.convertToRGB ∧
    colorModificationFlow.indexOf Stage.convertToRGB <
      colorModificationFlow.indexOf Stage.cssFilters := by
  decide

/-- C7: for every tint strength, also outside `[0,100]`, `applyTint` behaves
exactly as on the strength clamped into `[0,100]`: out-of-range strengths are
silently clamped and never fail. -/
theorem c7_strength_clamped (parse : String → HSLA) (hsl : HSLA)
    (tintColor : String) (tintStrength : ℚ) :
    applyTint parse hsl tintColor tintStrength =
      applyTint parse hsl tintColor (min 100 (max 0 tintStrength)) := by
  by_cases htc : tintColor = ""
  · rw [applyTint, applyTint, if_pos (Or.inl htc), if_pos (Or.inl htc)]
  · rcases le_or_lt tintStrength 0 with hle | hpos
    · rw [applyTint, applyTint, if_pos (Or.inr hle),
        if_pos (Or.inr (le_of_eq (strengthClamp_of_nonpos hle)))]
    · have hpos2 : 0 < min 100 (max 0 tintStrength) :=
        lt_min (by norm_num) (lt_max_iff.mpr (Or.inr hpos))
      rw [applyTint, applyTint, if_neg (by push_neg; exact ⟨htc, by linarith⟩),
        if_neg (by push_neg; exact ⟨htc, by linarith⟩)]
      simp only [strengthClamp_idem]

/-- C8: both `applyTint` variants pass the alpha component through unchanged
for every input color, tint color string and strength. -/
theorem c8_alpha_preserved (parse : String → HSLA) (hsl : HSLA)
    (tintColor : String) (tintStrength : ℚ) :
    (applyTint parse hsl tintColor tintStrength).a = hsl.a ∧
    (applyTintBoosts parse hsl tintColor tintStrength).a = hsl.a := by
  constructor
  · rw [applyTint]
    split_ifs <;> rfl
  · rfl

/-- C10: blending a color at hue 10 toward a tint at hue 350 at strength 100
returns hue -2, because the `% 360` operator keeps the sign of its left
operand; the output hue is not always in the canonical range `[0,360)`. -/
theorem c10_negative_hue :
    (applyTint parseHue350 ⟨10, 1 / 2, 1 / 2, 1⟩ "#FF6B6B" 100).h = -2 ∧
    (applyTint parseHue350 ⟨10, 1 / 2, 1 / 2, 1⟩ "#FF6B6B" 100).h < 0 := by
  have hmain : (applyTint parseHue350 ⟨10, 1 / 2, 1 / 2, 1⟩ "#FF6B6B" 100).h = -2 := by
    rw [applyTint_active (by decide) (by norm_num)]
    dsimp only [parseHue350]
    rw [if_pos (by norm_num)]
    rw [strengthClamp_of_range (by norm_num) (by norm_num)]
    have harg : (10 : ℚ) + (350 - 10 - 360) * (100 / 100) * (6 / 10) = -2 := by norm_num
    rw [harg, jsMod, ratTrunc]
    norm_num
  exact ⟨hmain, by rw [hmain]; norm_num⟩

/-- C2: for every pair of a color at hue 350 and a parsed tint at hue 10,
blending at strength 100 yields hue 2: the hue crosses the 360/0 boundary
and lands on the short 20 degree arc from 350 through 360/0 to 10, never
moving backward through 180. -/
theorem c2_hue_wraparound (parse : String → HSLA) (hsl : HSLA) (tintColor : String)
    (hh : hsl.h = 350) (hth : (parse tintColor).h = 10) (hne : tintColor ≠ "") :
    (applyTint parse hsl tintColor 100).h = 2 ∧
    (0 ≤ (applyTint parse hsl tintColor 100).h ∧
        (applyTint parse hsl tintColor 100).h ≤ 10 ∨
      350 ≤ (applyTint parse hsl tintColor 100).h ∧
        (applyTint parse hsl tintColor 100).h < 360) := by
  have hmain : (applyTint parse hsl tintColor 100).h = 2 := by
    rw [applyTint_active hne (by norm_num)]
    dsimp only
    rw [hh, hth]
    rw [if_neg (by norm_num), if_pos (by norm_num)]
    rw [strengthClamp_of_range (by norm_num) (by norm_num)]
    have harg : (350 : ℚ) + (10 - 350 + 360) * (100 / 100) * (6 / 10) = 362 := by
      norm_num
    rw [harg, jsMod, ratTrunc]
    norm_num
  refine ⟨hmain, Or.inl ⟨?_, ?_⟩⟩ <;> rw [hmain] <;> norm_num

/-- Witness for C2 at a concrete color and tint. -/
theorem c2_hue_wraparound_witness :
    (⟨350, 1 / 2, 1 / 2, 1⟩ : HSLA).h = 350 ∧ (parseHue10 "#0AF").h = 10 ∧
    ("#0AF" : String) ≠ "" ∧
    (applyTint parseHue10 ⟨350, 1 / 2, 1 / 2, 1⟩ "#0AF" 100).h = 2 :=
  ⟨rfl, rfl, by decide,
   (c2_hue_wraparound parseHue10 ⟨350, 1 / 2, 1 / 2, 1⟩ "#0AF" rfl rfl (by decide)).1⟩

/-- C5: changing any `ThemeConfig` field changes the fingerprint, so looking
up a color under the new fingerprint never returns an entry that was stored
under the old one. -/
theorem c5_cache_coherence (T1 T2 : ThemeConfig) (c : String)
    (entries : List CacheEntry) (e : CacheEntry) (hne : T1 ≠ T2)
    (hlook : lookupCache entries c (themeFingerprint T2) = some e) :
    e.fp = themeFingerprint T2 ∧ e.fp ≠ themeFingerprint T1 := by
  rw [lookupCache] at hlook
  have hp := List.find?_some hlook
  have hpe : e.color = c ∧ e.fp = themeFingerprint T2 := of_decide_eq_true hp
  refine ⟨hpe.2, ?_⟩
  rw [hpe.2]
  intro hcontra
  exact hne (themeFingerprint_injective hcontra).symm

/-- Witness for C5: a cache entry stored under the warm-tint theme is found
under the warm-tint fingerprint and does not carry the default fingerprint. -/
theorem c5_cache_coherence_witness :
    DEFAULT_THEME ≠ warmTintTheme ∧
    lookupCache [warmCacheEntry] "#FFFFFF" (themeFingerprint warmTintTheme) =
      some warmCacheEntry ∧
    warmCacheEntry.fp = themeFingerprint warmTintTheme ∧
    warmCacheEntry.fp ≠ themeFingerprint DEFAULT_THEME := by
  have hne : DEFAULT_THEME ≠ warmTintTheme := by
    intro h
    have h2 := congrArg ThemeConfig.tintStrength h
    simp only [DEFAULT_THEME, warmTintTheme] at h2
    norm_num at h2
  have hlook : lookupCache [warmCacheEntry] "#FFFFFF"
      (themeFingerprint warmTintTheme) = some warmCacheEntry := by
    rw [lookupCache]
    apply List.find?_cons_of_pos
    rw [decide_eq_true_eq]
    exact ⟨rfl, rfl⟩
  exact ⟨hne, hlook,
    c5_cache_coherence DEFAULT_THEME warmTintTheme "#FFFFFF" [warmCacheEntry]
      warmCacheEntry hne hlook⟩

/-- C6 counterexample: 200 lies in the claimed range `[50,200]`, yet it is
not a selectable value of the `FilterSettings` brightness control, whose
maximum is 150 (and whose step is 5). -/
theorem c6_range_counterexample :
    ((50 : ℤ) ≤ 200 ∧ (200 : ℤ) ≤ 200) ∧
    ¬ UpDownReachable brightnessControl 200 := by
  refine ⟨⟨by norm_num, le_refl _⟩, fun h => ?_⟩
  have hb := brightnessReachable_inv h
  linarith [hb.2.1]

/-- C6 amended: the brightness and contrast settings of the theme settings
controls each range over `[50,150]` in steps of 5 with default 100; exactly
the integers `v` with `50 ≤ v ≤ 150` and `v ≡ 100 (mod 5)` are selectable,
and the selected value is passed unchanged into the theme configuration. -/
theorem c6_range_amended :
    (∀ v : ℤ, UpDownReachable brightnessControl v ↔
        (50 ≤ v ∧ v ≤ 150 ∧ (5 : ℤ) ∣ (v - 100))) ∧
    (∀ v : ℤ, UpDownReachable contrastControl v ↔
        (50 ≤ v ∧ v ≤ 150 ∧ (5 : ℤ) ∣ (v - 100))) ∧
    brightnessControl.default = 100 ∧ contrastControl.default = 100 ∧
    (∀ (t : ThemeConfig) (v : ℚ),
      (setBrightness t v).brightness = v ∧ (setContrast t v).contrast = v) := by
  refine ⟨brightnessReachable_iff, ?_, rfl, rfl, fun t v => ⟨rfl, rfl⟩⟩
  intro v
  rw [contrastControl_eq]
  exact brightnessReachable_iff v

/-- Witness for C6 amended: 150 is selectable on the brightness control and
105 on the contrast control. -/
theorem c6_range_amended_witness :
    UpDownReachable brightnessControl 150 ∧ UpDownReachable contrastControl 105 :=
  ⟨(c6_range_amended.1 150).mpr ⟨by norm_num, by norm_num, ⟨10, by norm_num⟩⟩,
   (c6_range_amended.2.1 105).mpr ⟨by norm_num, by norm_num, ⟨1, by norm_num⟩⟩⟩

lemma applyTint_eq_boosts {parse : String → HSLA} {hsl : HSLA} {tintColor : String}
    {tintStrength : ℚ} (hne : tintColor ≠ "")
    (hh0 : 0 ≤ hsl.h) (hh1 : hsl.h < 360)
    (hs0 : 0 ≤ hsl.s) (hs1 : hsl.s ≤ 1) (hl0 : 0 ≤ hsl.l) (hl1 : hsl.l ≤ 1)
    (hq0 : 0 ≤ (parse tintColor).s) (hq1 : (parse tintColor).s ≤ 1)
    (hr0 : 0 ≤ (parse tintColor).l) (hr1 : (parse tintColor).l ≤ 1) :
    applyTint parse hsl tintColor tintStrength =
      applyTintBoosts parse hsl tintColor tintStrength := by
  rcases le_or_lt tintStrength 0 with hle | hpos
  · rw [applyTint, if_pos (Or.inr hle), applyTintBoosts]
    rw [strengthClamp_of_nonpos hle]
    ext
    · have h1 : ∀ x : ℚ, hsl.h + x * (0 / 100) * (6 / 10) = hsl.h := fun x => by ring
      rw [h1, jsMod_eq_self hh0 hh1]
    · have h2 : ∀ x y : ℚ, x + y * (0 / 100) * (5 / 10) = x := fun x y => by ring
      rw [h2]
    · have h3 : ∀ x y : ℚ, x + y * (0 / 100) * (2 / 10) = x := fun x y => by ring
      rw [h3]
    · rfl
  · rw [applyTint_active hne hpos, applyTintBoosts]
    ext
    · rfl
    · exact clamp_eq_self
        (satBlend_mem hs0 hs1 hq0 hq1 (strengthClamp_nonneg tintStrength)
          (strengthClamp_le_one tintStrength)).1
        (satBlend_mem hs0 hs1 hq0 hq1 (strengthClamp_nonneg tintStrength)
          (strengthClamp_le_one tintStrength)).2
    · exact clamp_eq_self
        (lightBlend_mem hl0 hl1 hr0 hr1 (strengthClamp_nonneg tintStrength)
          (strengthClamp_le_one tintStrength)).1
        (lightBlend_mem hl0 hl1 hr0 hr1 (strengthClamp_nonneg tintStrength)
          (strengthClamp_le_one tintStrength)).2
    · rfl

/-- C9 counterexample: at tint strength 0 and an input hue of 400 (with all
saturation and lightness components in `[0,1]`), the guarded guide variant
returns its input unchanged (hue 400) while the boosts variant reduces the
hue by `% 360` to 40, so the two variants are not identical on all such
inputs. -/
theorem c9_clamp_equiv_counterexample :
    ((0 : ℚ) ≤ (⟨400, 1 / 2, 1 / 2, 1⟩ : HSLA).s ∧
      (⟨400, 1 / 2, 1 / 2, 1⟩ : HSLA).s ≤ 1 ∧
      (0 : ℚ) ≤ (⟨400, 1 / 2, 1 / 2, 1⟩ : HSLA).l ∧
      (⟨400, 1 / 2, 1 / 2, 1⟩ : HSLA).l ≤ 1 ∧
      (0 : ℚ) ≤ (parseRed "#FF0000").s ∧ (parseRed "#FF0000").s ≤ 1 ∧
      (0 : ℚ) ≤ (parseRed "#FF0000").l ∧ (parseRed "#FF0000").l ≤ 1) ∧
    applyTint parseRed ⟨400, 1 / 2, 1 / 2, 1⟩ "#FF0000" 0 ≠
      applyTintBoosts parseRed ⟨400, 1 / 2, 1 / 2, 1⟩ "#FF0000" 0 := by
  constructor
  · refine ⟨?_, ?_, ?_, ?_, ?_, ?_, ?_, ?_⟩ <;> norm_num [parseRed]
  · have hg : (applyTint parseRed ⟨400, 1 / 2, 1 / 2, 1⟩ "#FF0000" 0).h = 400 := by
      rw [applyTint, if_pos (Or.inr le_rfl)]
    have hb : (applyTintBoosts parseRed ⟨400, 1 / 2, 1 / 2, 1⟩ "#FF0000" 0).h = 40 := by
      rw [applyTintBoosts]
      dsimp only [parseRed]
      rw [if_neg (by norm_num), if_pos (by norm_num)]
      rw [strengthClamp_of_nonpos le_rfl]
      have harg : (400 : ℚ) + (0 - 400 + 360) * (0 / 100) * (6 / 10) = 400 := by
        norm_num
      rw [harg, jsMod, ratTrunc]
      norm_num
    intro heq
    rw [heq, hb] at hg
    norm_num at hg

/-- C9 amended: provided the tint color string is nonempty and the input hue
is canonical (in `[0,360)`), the clamping guide variant and the non-clamping
boosts variant of `applyTint` return identical results for every tint
strength on all inputs whose saturation and lightness lie in `[0,1]`: the
blended saturation and lightness are convex combinations with coefficient at
most 0.5 and 0.2, so the clamps are no-ops. -/
theorem c9_clamp_equiv_amended (parse : String → HSLA) (hsl : HSLA)
    (tintColor : String) (tintStrength : ℚ) (hne : tintColor ≠ "")
    (hh0 : 0 ≤ hsl.h) (hh1 : hsl.h < 360)
    (hs0 : 0 ≤ hsl.s) (hs1 : hsl.s ≤ 1) (hl0 : 0 ≤ hsl.l) (hl1 : hsl.l ≤ 1)
    (hq0 : 0 ≤ (parse tintColor).s) (hq1 : (parse tintColor).s ≤ 1)
    (hr0 : 0 ≤ (parse tintColor).l) (hr1 : (parse tintColor).l ≤ 1) :
    applyTint parse hsl tintColor tintStrength =
      applyTintBoosts parse hsl tintColor tintStrength :=
  applyTint_eq_boosts hne hh0 hh1 hs0 hs1 hl0 hl1 hq0 hq1 hr0 hr1

/-- Witness for C9 amended at a concrete color, tint and strength. -/
theorem c9_clamp_equiv_amended_witness :
    ("#4ECDC4" : String) ≠ "" ∧
    applyTint parseGreen ⟨30, 1 / 4, 3 / 4, 7 / 10⟩ "#4ECDC4" 20 =
      applyTintBoosts parseGreen ⟨30, 1 / 4, 3 / 4, 7 / 10⟩ "#4ECDC4" 20 :=
  ⟨by decide,
   c9_clamp_equiv_amended parseGreen ⟨30, 1 / 4, 3 / 4, 7 / 10⟩ "#4ECDC4" 20
    (by decide) (by norm_num) (by norm_num) (by norm_num) (by norm_num)
    (by norm_num) (by norm_num) (by norm_num [parseGreen])
    (by norm_num [parseGreen]) (by norm_num [parseGreen])
    (by norm_num [parseGreen])⟩

/-- C1: for every filtered HSLA color (hue in `[0,360)`, saturation and
lightness in `[0,1]`), every parsed tint color (saturation and lightness in
`[0,1]`), and every tint strength in `[0,100]`, both `applyTint` variants
compute with `s = tintStrength/100`: new hue `(colorHue + d*s*0.6) % 360`
where `d` is the signed shortest angular hue difference (adjusted by -360
when above 180 and by +360 when below -180), new saturation
`colorSat + (tintSat - colorSat)*s*0.5`, new lightness
`colorLight + (tintLight - colorLight)*s*0.2` — exactly the fixed weights
0.6, 0.5 and 0.2 — and alpha unchanged. -/
theorem c1_tint_blend_weights (parse : String → HSLA) (hsl : HSLA)
    (tintColor : String) (tintStrength : ℚ) (hne : tintColor ≠ "")
    (hts0 : 0 ≤ tintStrength) (hts1 : tintStrength ≤ 100)
    (hh0 : 0 ≤ hsl.h) (hh1 : hsl.h < 360)
    (hs0 : 0 ≤ hsl.s) (hs1 : hsl.s ≤ 1) (hl0 : 0 ≤ hsl.l) (hl1 : hsl.l ≤ 1)
    (hq0 : 0 ≤ (parse tintColor).s) (hq1 : (parse tintColor).s ≤ 1)
    (hr0 : 0 ≤ (parse tintColor).l) (hr1 : (parse tintColor).l ≤ 1) :
    applyTint parse hsl tintColor tintStrength =
      { h := jsMod (hsl.h +
            (if (parse tintColor).h - hsl.h > 180 then (parse tintColor).h - hsl.h - 360
              else if (parse tintColor).h - hsl.h < -180 then (parse tintColor).h - hsl.h + 360
              else (parse tintColor).h - hsl.h) * (tintStrength / 100) * (6 / 10)) 360
        s := hsl.s + ((parse tintColor).s - hsl.s) * (tintStrength / 100) * (5 / 10)
        l := hsl.l + ((parse tintColor).l - hsl.l) * (tintStrength / 100) * (2 / 10)
        a := hsl.a } ∧
    applyTintBoosts parse hsl tintColor tintStrength =
      { h := jsMod (hsl.h +
            (if (parse tintColor).h - hsl.h > 180 then (parse tintColor).h - hsl.h - 360
              else if (parse tintColor).h - hsl.h < -180 then (parse tintColor).h - hsl.h + 360
              else (parse tintColor).h - hsl.h) * (tintStrength / 100) * (6 / 10)) 360
        s := hsl.s + ((parse tintColor).s - hsl.s) * (tintStrength / 100) * (5 / 10)
        l := hsl.l + ((parse tintColor).l - hsl.l) * (tintStrength / 100) * (2 / 10)
        a := hsl.a } := by
  constructor
  · rw [applyTint_eq_boosts hne hh0 hh1 hs0 hs1 hl0 hl1 hq0 hq1 hr0 hr1,
      applyTintBoosts, strengthClamp_of_range hts0 hts1]
  · rw [applyTintBoosts, strengthClamp_of_range hts0 hts1]

/-- Witness for C1 at a concrete color, tint and strength, with the blended
value computed out. -/
theorem c1_tint_blend_weights_witness :
    (("#27AE60" : String) ≠ "" ∧ (0 : ℚ) ≤ 50 ∧ (50 : ℚ) ≤ 100 ∧
      (0 : ℚ) ≤ (parseGreen "#27AE60").s ∧ (parseGreen "#27AE60").s ≤ 1) ∧
    applyTint parseGreen ⟨30, 1 / 4, 3 / 4, 7 / 10⟩ "#27AE60" 50 =
      ⟨57, 13 / 48, 89 / 120, 7 / 10⟩ := by
  refine ⟨⟨by decide, by norm_num, by norm_num, by norm_num [parseGreen],
    by norm_num [parseGreen]⟩, ?_⟩
  have h := (c1_tint_blend_weights parseGreen ⟨30, 1 / 4, 3 / 4, 7 / 10⟩ "#27AE60" 50
    (by decide) (by norm_num) (by norm_num) (by norm_num) (by norm_num)
    (by norm_num) (by norm_num) (by norm_num) (by norm_num)
    (by norm_num [parseGreen]) (by norm_num [parseGreen])
    (by norm_num [parseGreen]) (by norm_num [parseGreen])).1
  rw [h]
  ext
  · dsimp only [parseGreen]
    rw [if_neg (by norm_num), if_neg (by norm_num)]
    have harg : (30 : ℚ) + (120 - 30) * (50 / 100) * (6 / 10) = 57 := by norm_num
    rw [harg, jsMod_eq_self (by norm_num) (by norm_num)]
  · norm_num [parseGreen]
  · norm_num [parseGreen]
  · rfl
